import Mathlib

/-
  Verification development for the spark compiler middle-end:
  the IR data model (ir/mod.rs), the binary/unary expression lowering
  rules (ir/lower/op.rs), and the pointer arm of the LLVM code
  generator binary-expression handler (code/llvm/mod.rs).

  Machine integers that appear (type-handle indices, span offsets,
  array lengths) are arena indices and byte offsets; the source never
  relies on wraparound for them, so they are modelled as Nat.
-/

namespace Spark

/-- Modelled from the spec: `Span` (crate::util::loc, not in the excerpt)
is a byte-offset source range with fields `from` and `to`; both are
reserved words in Lean so the fields are named `from_` and `to_`. -/
structure Span where
  from_ : Nat
  to_ : Nat
  deriving DecidableEq

/-- Modelled from the spec: the parser operator token `Op`
(crate::parse::token, not in the excerpt); the spec lists the variants
`Add, Sub, Star, Div, Eq, Greater, GreaterEq, Less, LessEq, ShLeft,
ShRight, LogicalAnd, LogicalOr, LogicalNot, AND, NOT`. -/
inductive Op where
  | Add
  | Sub
  | Star
  | Div
  | Eq
  | Greater
  | GreaterEq
  | Less
  | LessEq
  | ShLeft
  | ShRight
  | LogicalAnd
  | LogicalOr
  | LogicalNot
  | AND
  | NOT
  deriving DecidableEq

/-- Modelled from the spec: the Display rendering of `Op` lives in the
parser module, outside the excerpt; each operator is rendered by its
source-language symbol, which is only required to name the operator
distinctly inside diagnostic messages. -/
def Op.fmt : Op → String
  | .Add => "+"
  | .Sub => "-"
  | .Star => "*"
  | .Div => "/"
  | .Eq => "=="
  | .Greater => ">"
  | .GreaterEq => ">="
  | .Less => "<"
  | .LessEq => "<="
  | .ShLeft => "<<"
  | .ShRight => ">>"
  | .LogicalAnd => "&&"
  | .LogicalOr => "||"
  | .LogicalNot => "!"
  | .AND => "&"
  | .NOT => "~"

/-- Modelled from the spec: `IntegerWidth` (crate::ast, not in the
excerpt) with the four widths 8, 16, 32, 64 used by IrContext::new. -/
inductive IntegerWidth where
  | Eight
  | Sixteen
  | ThirtyTwo
  | SixtyFour
  deriving DecidableEq

/-- Modelled from the spec: integer IR type `IrIntegerType` with
signedness and width (crate::ir::types::integer, not in the excerpt). -/
structure IrIntegerType where
  signed : Bool
  width : IntegerWidth
  deriving DecidableEq

/-- Modelled from the spec: float IR type `IrFloatType` with a
doublewide flag (crate::ir::types::float, not in the excerpt). -/
structure IrFloatType where
  doublewide : Bool
  deriving DecidableEq

/-- Modelled from the spec: array IR type with element type handle and
length, as consumed by the typename formatter. -/
structure IrArrayType where
  element : Nat
  len : Nat
  deriving DecidableEq

/-- Modelled from the spec: struct IR type, an ordered list of
(field type handle, field name) pairs. -/
structure IrStructType where
  fields : List (Nat × String)
  deriving DecidableEq

/-- Modelled from the spec: sum IR type, an ordered list of variant
type handles. -/
structure IrSumType where
  variants : List Nat
  deriving DecidableEq

/-- Modelled from the spec: function IR type with argument list of
(type handle, optional name) and a return type handle. -/
structure IrFunType where
  args : List (Nat × Option String)
  return_ty : Nat
  deriving DecidableEq

/-- Modelled from the spec: the closed variant set `IrType`
(crate::ir::types, not in the excerpt); the variant shapes are pinned
by the spec data model section and by the match arms of the typename
formatter and expression lowerer that consume them. Type handles
(`TypeId`) are arena indices, modelled as Nat. -/
inductive IrType where
  | Integer (ity : IrIntegerType)
  | Float (fty : IrFloatType)
  | Bool
  | Unit
  | Ptr (to_ : Nat)
  | Array (aty : IrArrayType)
  | Struct (sty : IrStructType)
  | Sum (uty : IrSumType)
  | Fun (fty : IrFunType)
  | Alias (name : String) (underlying : Nat)
  | Invalid
  deriving DecidableEq

/-- Modelled from the spec: the type `Interner` (crate::arena, not in
the excerpt): an append-only store; `insert` appends and returns the
next index, so that repeated insertion at context construction yields
the fixed handles 0..12 in order and every issued handle stays valid
and stable for the context lifetime. -/
structure Interner where
  types : List IrType
  deriving DecidableEq

/-- Append a type and return the updated interner with the new type 
stable handle. -/
def Interner.insert (i : Interner) (t : IrType) : Interner × Nat :=
  (⟨i.types ++ [t]⟩, i.types.length)

/-- Read access by handle; a stale or foreign handle is a programmer
error in the source, modelled here by the Invalid sentinel. -/
def Interner.index (i : Interner) (id : Nat) : IrType :=
  i.types.getD id IrType.Invalid

/-- The IR context (ir/mod.rs). Only the type interner participates in
any claim; the `funs`, `bbs` and `vars` arenas never do and are
omitted from the model. -/
structure IrContext where
  types : Interner
  deriving DecidableEq

def IrContext.I8 : Nat := 0
def IrContext.I16 : Nat := 1
def IrContext.I32 : Nat := 2
def IrContext.I64 : Nat := 3
def IrContext.U8 : Nat := 4
def IrContext.U16 : Nat := 5
def IrContext.U32 : Nat := 6
def IrContext.U64 : Nat := 7
def IrContext.BOOL : Nat := 8
def IrContext.UNIT : Nat := 9
def IrContext.F32 : Nat := 10
def IrContext.F64 : Nat := 11
def IrContext.INVALID : Nat := 12

/-- IrContext::new (ir/mod.rs): create a context with the thirteen
primitive and sentinel types inserted in their fixed order. -/
def IrContext.new : IrContext :=
  let t : Interner := ⟨[]⟩
  let t := (t.insert (.Integer ⟨true, .Eight⟩)).1
  let t := (t.insert (.Integer ⟨true, .Sixteen⟩)).1
  let t := (t.insert (.Integer ⟨true, .ThirtyTwo⟩)).1
  let t := (t.insert (.Integer ⟨true, .SixtyFour⟩)).1
  let t := (t.insert (.Integer ⟨false, .Eight⟩)).1
  let t := (t.insert (.Integer ⟨false, .Sixteen⟩)).1
  let t := (t.insert (.Integer ⟨false, .ThirtyTwo⟩)).1
  let t := (t.insert (.Integer ⟨false, .SixtyFour⟩)).1
  let t := (t.insert .Bool).1
  let t := (t.insert .Unit).1
  let t := (t.insert (.Float ⟨false⟩)).1
  let t := (t.insert (.Float ⟨true⟩)).1
  let t := (t.insert .Invalid).1
  ⟨t⟩

/-- The Index impl of IrContext for TypeId (ir/mod.rs): delegates to
the interner read access. -/
def IrContext.index (ctx : IrContext) (id : Nat) : IrType :=
  ctx.types.index id

/-- IrContext::itype (ir/mod.rs): the fixed handle of the integer type
with the given signedness and width. -/
def IrContext.itype (signed : Bool) (width : IntegerWidth) : Nat :=
  match signed, width with
  | true, .Eight => IrContext.I8
  | true, .Sixteen => IrContext.I16
  | true, .ThirtyTwo => IrContext.I32
  | true, .SixtyFour => IrContext.I64
  | false, .Eight => IrContext.U8
  | false, .Sixteen => IrContext.U16
  | false, .ThirtyTwo => IrContext.U32
  | false, .SixtyFour => IrContext.U64

/-- The integer rendering table of the TypenameFormatter (ir/mod.rs). -/
def intName (ity : IrIntegerType) : String :=
  match ity.signed, ity.width with
  | true, .Eight => "i8"
  | true, .Sixteen => "i16"
  | true, .ThirtyTwo => "i32"
  | true, .SixtyFour => "i64"
  | false, .Eight => "u8"
  | false, .Sixteen => "u16"
  | false, .ThirtyTwo => "u32"
  | false, .SixtyFour => "u64"

/-- The recursive Display impl of TypenameFormatter (ir/mod.rs),
with an explicit fuel argument: the source recurses on the type-handle
graph directly, whose depth the spec asserts is finite for types the
language can construct, and the fuel makes that recursion total here. -/
def fmtTypename (ctx : IrContext) : Nat → Nat → String
  | 0, _ => ""
  | fuel + 1, ty =>
    match ctx.index ty with
    | .Integer ity => intName ity
    | .Bool => "bool"
    | .Unit => "()"
    | .Sum uty =>
      String.join (uty.variants.map (fun v => fmtTypename ctx fuel v ++ " | "))
    | .Float fty => if fty.doublewide then "f64" else "f32"
    | .Alias name _ => name
    | .Array aty => "[" ++ toString aty.len ++ "]" ++ fmtTypename ctx fuel aty.element
    | .Struct sty =>
      "\x7b" ++
        String.join (sty.fields.map (fun fld => fmtTypename ctx fuel fld.1 ++ " " ++ fld.2 ++ ",")) ++
        "\x7d"
    | .Ptr t => "*" ++ fmtTypename ctx fuel t
    | .Fun fty =>
      "fun (" ++
        String.join (fty.args.map (fun a => fmtTypename ctx fuel a.1 ++ " " ++ (a.2.getD "") ++ ", ")) ++
        ") -> " ++ fmtTypename ctx fuel fty.return_ty
    | .Invalid => "INVALID"

/-- IrContext::typename (ir/mod.rs): render a human-readable name for
a type handle. The fuel bound exceeds the number of stored types, which
covers every nesting the concrete claims exercise. -/
def IrContext.typename (ctx : IrContext) (ty : Nat) : String :=
  fmtTypename ctx (ctx.types.types.length + 1) ty

/-- Modelled from the spec: the label style of the diagnostics
collaborator (codespan_reporting): labels are tagged primary or
secondary. -/
inductive LabelStyle where
  | primary
  | secondary
  deriving DecidableEq

/-- Modelled from the spec: a diagnostic label with a style, a file
handle, a source span and an optional message (empty when absent). -/
structure Label where
  style : LabelStyle
  file : Nat
  span : Span
  message : String
  deriving DecidableEq

/-- Label::primary of the diagnostics collaborator. -/
def Label.primary (file : Nat) (span : Span) : Label :=
  ⟨.primary, file, span, ""⟩

/-- Label::secondary of the diagnostics collaborator. -/
def Label.secondary (file : Nat) (span : Span) : Label :=
  ⟨.secondary, file, span, ""⟩

/-- Label::with_message of the diagnostics collaborator. -/
def Label.with_message (l : Label) (m : String) : Label :=
  { l with message := m }

/-- Modelled from the spec: diagnostic severity; only `error` is
produced by the lowering code. -/
inductive Severity where
  | error
  deriving DecidableEq

/-- Modelled from the spec: a diagnostic value with severity, message
and an ordered list of labels. -/
structure Diagnostic where
  severity : Severity
  message : String
  labels : List Label
  deriving DecidableEq

/-- Diagnostic::error of the diagnostics collaborator. -/
def Diagnostic.error : Diagnostic :=
  ⟨.error, "", []⟩

/-- Diagnostic::with_message of the diagnostics collaborator. -/
def Diagnostic.with_message (d : Diagnostic) (m : String) : Diagnostic :=
  { d with message := m }

/-- Diagnostic::with_labels of the diagnostics collaborator: extends
the label list. -/
def Diagnostic.with_labels (d : Diagnostic) (ls : List Label) : Diagnostic :=
  { d with labels := d.labels ++ ls }

mutual

/-- The IR expression (crate::ir::value, shape given by the spec data
model): a span, a resolved type handle and a kind. -/
inductive IrExpr where
  | mk (span : Span) (ty : Nat) (kind : IrExprKind)

/-- Modelled from the spec: the kinds of IR expression; `Binary` and
`Unary` are the two kinds the excerpt constructs, and `Other` stands
for the literal/access/call variants the spec says exist structurally
but does not detail. -/
inductive IrExprKind where
  | Binary (lhs : IrExpr) (op : Op) (rhs : IrExpr)
  | Unary (op : Op) (operand : IrExpr)
  | Other

end

def IrExpr.span : IrExpr → Span
  | .mk s _ _ => s

def IrExpr.ty : IrExpr → Nat
  | .mk _ t _ => t

def IrExpr.kind : IrExpr → IrExprKind
  | .mk _ _ k => k

/-- The compatibility table of IrLowerer::lower_bin (ir/lower/op.rs,
lines 23..44): the match over (lhs type, operator, rhs type), returning
the result type handle where a row matches. The handle of the lhs
operand is passed in so the integer/float/pointer rows can return
`lhs.ty` exactly as the source does. -/
def binOpResultTy (lt : IrType) (op : Op) (rt : IrType) (lhsTy : Nat) : Option Nat :=
  match lt, op, rt with
  | .Bool, .LogicalAnd, .Bool
  | .Bool, .LogicalOr, .Bool
  | .Bool, .LogicalNot, .Bool
  | .Bool, .Eq, .Bool => some IrContext.BOOL
  | .Integer _, .Eq, .Integer _
  | .Integer _, .Greater, .Integer _
  | .Integer _, .GreaterEq, .Integer _
  | .Integer _, .Less, .Integer _
  | .Integer _, .LessEq, .Integer _
  | .Integer _, .Star, .Integer _
  | .Integer _, .Div, .Integer _
  | .Integer _, .Add, .Integer _
  | .Integer _, .Sub, .Integer _
  | .Integer _, .ShLeft, .Integer _
  | .Integer _, .ShRight, .Integer _ => some lhsTy
  | .Float _, .Eq, .Float _
  | .Float _, .Greater, .Float _
  | .Float _, .GreaterEq, .Float _
  | .Float _, .Less, .Float _
  | .Float _, .LessEq, .Float _
  | .Float _, .Star, .Float _
  | .Float _, .Div, .Float _
  | .Float _, .Add, .Float _
  | .Float _, .Sub, .Float _ => some lhsTy
  | .Ptr _, .ShRight, .Integer _
  | .Ptr _, .ShLeft, .Integer _ => some lhsTy
  | .Ptr _, .Add, .Ptr _
  | .Ptr _, .Add, .Integer _
  | .Ptr _, .Sub, .Ptr _
  | .Ptr _, .Sub, .Integer _ => some lhsTy
  | _, _, _ => none

/-- The TypeMismatch diagnostic built by the default arm of
IrLowerer::lower_bin (ir/lower/op.rs, lines 45..59). -/
def binDiag (ctx : IrContext) (file : Nat) (lhs : IrExpr) (op : Op) (rhs : IrExpr) : Diagnostic :=
  (Diagnostic.error.with_message
    ("Cannot apply binary operator " ++ op.fmt ++ " to operand types " ++
      ctx.typename lhs.ty ++ " and " ++ ctx.typename rhs.ty)).with_labels
    [ Label.primary file ⟨lhs.span.from_, rhs.span.to_⟩,
      (Label.secondary file lhs.span).with_message
        ("LHS of type " ++ ctx.typename lhs.ty ++ " appears here"),
      (Label.secondary file rhs.span).with_message
        ("RHS of type " ++ ctx.typename rhs.ty ++ " appears here") ]

/-- IrLowerer::lower_bin (ir/lower/op.rs) on operands that are already
lowered: classify the operand types against the compatibility table;
on a match build the Binary expression spanning from the LHS start to
the RHS end, otherwise return the TypeMismatch diagnostic. The
recursive lowering of the two operand sub-expressions (lines 20..21)
is modelled separately by `lower_bin_f`. -/
def lower_bin (ctx : IrContext) (file : Nat) (lhs : IrExpr) (op : Op) (rhs : IrExpr) :
    Except Diagnostic IrExpr :=
  match binOpResultTy (ctx.index lhs.ty) op (ctx.index rhs.ty) lhs.ty with
  | some ty => .ok (.mk ⟨lhs.span.from_, rhs.span.to_⟩ ty (.Binary lhs op rhs))
  | none => .error (binDiag ctx file lhs op rhs)

/-- The TypeMismatch diagnostic built by the default arm of
IrLowerer::lower_unary (ir/lower/op.rs, lines 86..95). -/
def unaryDiag (ctx : IrContext) (file : Nat) (op : Op) (e : IrExpr) : Diagnostic :=
  (Diagnostic.error.with_message
    ("Cannot apply unary operator " ++ op.fmt ++ " to expression of type " ++
      ctx.typename e.ty)).with_labels
    [ Label.primary file e.span ]

/-- IrLowerer::lower_unary (ir/lower/op.rs) on an operand that is
already lowered: match (operator, operand type); dereference through a
pointer, take an address by interning a new pointer type (the one arm
that mutates the context, hence the returned context), negate an
integer or float, complement an integer or pointer, and fail with the
TypeMismatch diagnostic otherwise. The result reuses the operand 
span. -/
def lower_unary (ctx : IrContext) (file : Nat) (op : Op) (e : IrExpr) :
    Except Diagnostic (IrContext × IrExpr) :=
  match op, ctx.index e.ty with
  | .Star, .Ptr t => .ok (ctx, .mk e.span t (.Unary op e))
  | .AND, _ =>
    let r := ctx.types.insert (.Ptr e.ty)
    .ok (⟨r.1⟩, .mk e.span r.2 (.Unary op e))
  | .Sub, .Integer _ => .ok (ctx, .mk e.span e.ty (.Unary op e))
  | .Sub, .Float _ => .ok (ctx, .mk e.span e.ty (.Unary op e))
  | .NOT, .Integer _ => .ok (ctx, .mk e.span e.ty (.Unary op e))
  | .NOT, .Ptr _ => .ok (ctx, .mk e.span e.ty (.Unary op e))
  | _, _ => .error (unaryDiag ctx file op e)

/-- The operand-lowering sequencing of IrLowerer::lower_bin
(ir/lower/op.rs, lines 20..21): lower the LHS sub-expression, then the
RHS in the state the LHS produced, propagating either failure with `?`,
then classify. The recursive lower_expr is outside the excerpt, so it
is a parameter: a state-passing function from a context and an AST
node to a lowered expression and successor context. -/
def lower_bin_f {Expr : Type}
    (lowerExpr : IrContext → Expr → Except Diagnostic (IrExpr × IrContext))
    (ctx : IrContext) (file : Nat) (lhs : Expr) (op : Op) (rhs : Expr) :
    Except Diagnostic IrExpr :=
  match lowerExpr ctx lhs with
  | .error d => .error d
  | .ok (l, ctx1) =>
    match lowerExpr ctx1 rhs with
    | .error d => .error d
    | .ok (r, ctx2) => lower_bin ctx2 file l op r

/-- The operand-lowering step of IrLowerer::lower_unary
(ir/lower/op.rs, line 79), with lower_expr as a parameter as in
`lower_bin_f`. -/
def lower_unary_f {Expr : Type}
    (lowerExpr : IrContext → Expr → Except Diagnostic (IrExpr × IrContext))
    (ctx : IrContext) (file : Nat) (op : Op) (e : Expr) :
    Except Diagnostic (IrContext × IrExpr) :=
  match lowerExpr ctx e with
  | .error d => .error d
  | .ok (le, ctx1) => lower_unary ctx1 file op le

namespace lex

/-- Modelled from the spec: the lexer operator token `Op` of the
legacy code generator path (crate::lex, not in the excerpt); the
variants are the ones Compiler::gen_bin matches on. -/
inductive Op where
  | Assign
  | Plus
  | Minus
  | Star
  | Divide
  | Modulo
  | Greater
  | Less
  | Equal
  | NEqual
  | GreaterEq
  | LessEq
  | And
  | Or
  | Xor
  | AndAnd
  | OrOr
  deriving DecidableEq

end lex

/-- The inkwell integer comparison predicates used by the code
generator. -/
inductive IntPredicate where
  | EQ
  | NE
  | SGT
  | SGE
  | SLT
  | SLE
  deriving DecidableEq

/-- The arithmetic instruction selected inside the pointer arm of
Compiler::gen_bin before casting back to pointer. -/
inductive PtrArith where
  | add
  | sub
  | mul
  | udiv
  deriving DecidableEq

/-- The instruction shape the pointer arm of Compiler::gen_bin emits:
either an integer comparison with a chosen predicate and value name, or
an arithmetic instruction cast back to the pointer type. -/
inductive PtrBinValue where
  | intCompare (pred : IntPredicate) (name : String)
  | intToPtr (arith : PtrArith) (name : String)
  deriving DecidableEq

/-- The pointer-operand arm of Compiler::gen_bin (code/llvm/mod.rs,
lines 246..303): both operands are cast ptr-to-int, then the operator
selects the emitted instruction; operators outside the list panic in
the source, modelled as `none`. -/
def gen_bin_ptr (op : lex.Op) : Option PtrBinValue :=
  match op with
  | .NEqual => some (.intCompare .NE "ptr_nequal_cmp")
  | .Equal => some (.intCompare .NE "ptr_equal_cmp")
  | .Plus => some (.intToPtr .add "ptr_add")
  | .Minus => some (.intToPtr .sub "ptr_sub")
  | .Star => some (.intToPtr .mul "ptr_mul")
  | .Divide => some (.intToPtr .udiv "ptr_div")
  | _ => none

/-- The comparison predicate of an emitted pointer-arm instruction,
when it is a comparison. -/
def predicateOf : Option PtrBinValue → Option IntPredicate
  | some (.intCompare p _) => some p
  | _ => none

/-- Whether an IR type falls in one of the five classes the binary
acceptance-table claim quantifies over. -/
def in5 : IrType → Bool
  | .Integer _ => true
  | .Float _ => true
  | .Bool => true
  | .Ptr _ => true
  | .Struct _ => true
  | _ => false

/-- The §4.3 compatibility table exactly as the specification words it,
for comparison against the lowering code: each row is a class test on
both operand types together with an operator set, and yields either the
Bool handle or the LHS operand own type handle. -/
def spec_bin_table (lt : IrType) (op : Op) (rt : IrType) (lhsTy : Nat) : Option Nat :=
  if lt = .Bool ∧ rt = .Bool ∧
      [Op.LogicalAnd, Op.LogicalOr, Op.LogicalNot, Op.Eq].contains op then
    some IrContext.BOOL
  else if lt matches .Integer _ ∧ rt matches .Integer _ ∧
      [Op.Eq, Op.Greater, Op.GreaterEq, Op.Less, Op.LessEq, Op.Star, Op.Div,
        Op.Add, Op.Sub, Op.ShLeft, Op.ShRight].contains op then
    some lhsTy
  else if lt matches .Float _ ∧ rt matches .Float _ ∧
      [Op.Eq, Op.Greater, Op.GreaterEq, Op.Less, Op.LessEq, Op.Star, Op.Div,
        Op.Add, Op.Sub].contains op then
    some lhsTy
  else if lt matches .Ptr _ ∧ rt matches .Integer _ ∧
      [Op.ShLeft, Op.ShRight].contains op then
    some lhsTy
  else if lt matches .Ptr _ ∧ (rt matches .Ptr _ ∨ rt matches .Integer _) ∧
      [Op.Add, Op.Sub].contains op then
    some lhsTy
  else
    none

/-- Whether one of the four unary typing rules of lower_unary applies
to an operator and operand type. -/
def unary_rule_applies (op : Op) (t : IrType) : Bool :=
  match op, t with
  | .Star, .Ptr _ => true
  | .AND, _ => true
  | .Sub, .Integer _ => true
  | .Sub, .Float _ => true
  | .NOT, .Integer _ => true
  | .NOT, .Ptr _ => true
  | _, _ => false

/-- Whether an Except value is a success. -/
def isOkE {ε α : Type} : Except ε α → Bool
  | .ok _ => true
  | .error _ => false

/-- Insert a list of further types into a context one by one, in
order, through the interner insert path. -/
def insertAll (ctx : IrContext) (l : List IrType) : IrContext :=
  l.foldl (fun c t => ⟨(c.types.insert t).1⟩) ctx

/-- A fresh context, used as the concrete fixture for several
witnesses. -/
def ctxN : IrContext := IrContext.new

/-- A lowered operand of type i32 spanning bytes 0..3. -/
def lhsI32 : IrExpr := .mk ⟨0, 3⟩ IrContext.I32 .Other

/-- A lowered operand of type i32 spanning bytes 6..9. -/
def rhsI32 : IrExpr := .mk ⟨6, 9⟩ IrContext.I32 .Other

/-- A lowered operand of type i64 spanning bytes 6..9. -/
def rhsI64 : IrExpr := .mk ⟨6, 9⟩ IrContext.I64 .Other

/-- A lowered operand of type bool spanning bytes 0..3. -/
def lhsBool : IrExpr := .mk ⟨0, 3⟩ IrContext.BOOL .Other

/-- A fresh context extended with the pointer type *i32 at handle 13. -/
def ctxP : IrContext := ⟨(IrContext.new.types.insert (.Ptr IrContext.I32)).1⟩

/-- A lowered operand of type *i32 spanning bytes 0..3. -/
def lhsP : IrExpr := .mk ⟨0, 3⟩ 13 .Other

/-- A lowered operand of type *i32 spanning bytes 6..9. -/
def rhsP : IrExpr := .mk ⟨6, 9⟩ 13 .Other

/-- A fresh context extended with the sum type of bool and unit at
handle 13. -/
def ctxS : IrContext := ⟨(IrContext.new.types.insert (.Sum ⟨[IrContext.BOOL, IrContext.UNIT]⟩)).1⟩

/-- A fresh context extended with the struct type containing one i32
field named x at handle 13, the array of four of it at handle 14, and
the pointer to that array at handle 15. -/
def ctxC7 : IrContext :=
  insertAll IrContext.new
    [.Struct ⟨[(IrContext.I32, "x")]⟩, .Array ⟨13, 4⟩, .Ptr 14]

/-- The same structural chain as in `ctxC7`, built only after two
unrelated insertions, so the struct, array and pointer live at handles
15, 16 and 17 instead. -/
def ctxC7b : IrContext :=
  insertAll IrContext.new
    [.Bool, .Unit, .Struct ⟨[(IrContext.I32, "x")]⟩, .Array ⟨15, 4⟩, .Ptr 16]

/-- A lowered operand whose type is the struct at handle 13 of a
context such as `ctxC7`, spanning bytes 0..3. -/
def lhsSt : IrExpr := .mk ⟨0, 3⟩ 13 .Other

/-- A lowered operand whose type is the struct at handle 13 of a
context such as `ctxC7`, spanning bytes 6..9. -/
def rhsSt : IrExpr := .mk ⟨6, 9⟩ 13 .Other

/-- A lowering oracle over a trivial AST type that fails on every
node, used to exercise the error-propagation theorems at a concrete
input. -/
def f0 : IrContext → Nat → Except Diagnostic (IrExpr × IrContext) :=
  fun _ _ => .error Diagnostic.error

/-- A lowering oracle over a trivial AST type that returns a fixed i32
expression without touching the context. -/
def f1 : IrContext → Nat → Except Diagnostic (IrExpr × IrContext) :=
  fun c n => .ok (.mk ⟨n, n + 3⟩ IrContext.I32 .Other, c)

/-- The lowering code compatibility match and the specification 
table agree on every pair of operand types and every operator. -/
theorem binOpResultTy_eq_spec (lt : IrType) (op : Op) (rt : IrType) (lhsTy : Nat) :
    binOpResultTy lt op rt lhsTy = spec_bin_table lt op rt lhsTy := by
  cases lt <;> cases rt <;> cases op <;> rfl

/-- C1: for already-lowered operands whose types fall in the classes
Integer, Float, Bool, Ptr, Struct and for every operator, lower_bin
succeeds exactly when a row of the §4.3 table matches, with the result
type the table assigns (Bool for the Bool row, the LHS operand type
handle for the others), and fails with the TypeMismatch diagnostic on
every other combination. -/
theorem C1_bin_acceptance_table (ctx : IrContext) (file : Nat) (lhs : IrExpr) (op : Op)
    (rhs : IrExpr) (_h1 : in5 (ctx.index lhs.ty) = true) (_h2 : in5 (ctx.index rhs.ty) = true) :
    lower_bin ctx file lhs op rhs =
      match spec_bin_table (ctx.index lhs.ty) op (ctx.index rhs.ty) lhs.ty with
      | some ty => .ok (.mk ⟨lhs.span.from_, rhs.span.to_⟩ ty (.Binary lhs op rhs))
      | none => .error (binDiag ctx file lhs op rhs) := by
  unfold lower_bin
  rw [binOpResultTy_eq_spec]

theorem C1_bin_acceptance_table_witness :
    in5 (ctxN.index lhsI32.ty) = true ∧ in5 (ctxN.index rhsI32.ty) = true ∧
    lower_bin ctxN 0 lhsI32 .Add rhsI32 =
      match spec_bin_table (ctxN.index lhsI32.ty) .Add (ctxN.index rhsI32.ty) lhsI32.ty with
      | some ty => .ok (.mk ⟨lhsI32.span.from_, rhsI32.span.to_⟩ ty (.Binary lhsI32 .Add rhsI32))
      | none => .error (binDiag ctxN 0 lhsI32 .Add rhsI32) :=
  ⟨by decide, by decide,
    C1_bin_acceptance_table ctxN 0 lhsI32 .Add rhsI32 (by decide) (by decide)⟩

/-- C2 counterexample: lower_bin on an i32 LHS and an i64 RHS with Add
succeeds with result type i32, where the claim says differing integer
types must fail with a TypeMismatch diagnostic. -/
theorem C2_counterexample :
    ctxN.index lhsI32.ty = .Integer ⟨true, .ThirtyTwo⟩ ∧
    ctxN.index rhsI64.ty = .Integer ⟨true, .SixtyFour⟩ ∧
    lower_bin ctxN 0 lhsI32 .Add rhsI64 =
      .ok (.mk ⟨0, 9⟩ IrContext.I32 (.Binary lhsI32 .Add rhsI64)) :=
  ⟨rfl, rfl, rfl⟩

/-- C2 amended: for every pair of integer-typed operands, whether or
not their integer types agree in width or signedness, lower_bin with
any of the eleven arithmetic, comparison and shift operators succeeds,
and the result type is exactly the LHS operand integer type handle:
no implicit widening or promotion is performed and the RHS operand 
type is ignored in the result. -/
theorem C2_int_lhs_result_type (ctx : IrContext) (file : Nat) (lhs : IrExpr) (op : Op)
    (rhs : IrExpr) (a b : IrIntegerType)
    (h1 : ctx.index lhs.ty = .Integer a) (h2 : ctx.index rhs.ty = .Integer b)
    (hop : [Op.Eq, Op.Greater, Op.GreaterEq, Op.Less, Op.LessEq, Op.Star, Op.Div,
        Op.Add, Op.Sub, Op.ShLeft, Op.ShRight].contains op = true) :
    lower_bin ctx file lhs op rhs =
      .ok (.mk ⟨lhs.span.from_, rhs.span.to_⟩ lhs.ty (.Binary lhs op rhs)) := by
  unfold lower_bin
  rw [h1, h2]
  cases op <;> first | rfl | simp at hop

theorem C2_int_lhs_result_type_witness :
    ctxN.index lhsI32.ty = .Integer ⟨true, .ThirtyTwo⟩ ∧
    ctxN.index rhsI64.ty = .Integer ⟨true, .SixtyFour⟩ ∧
    lower_bin ctxN 0 lhsI32 .Add rhsI64 =
      .ok (.mk ⟨lhsI32.span.from_, rhsI64.span.to_⟩ lhsI32.ty (.Binary lhsI32 .Add rhsI64)) :=
  ⟨by decide, by decide,
    C2_int_lhs_result_type ctxN 0 lhsI32 .Add rhsI64 ⟨true, .ThirtyTwo⟩ ⟨true, .SixtyFour⟩
      (by decide) (by decide) (by decide)⟩

/-- C8 counterexample: lower_bin on two operands of the same pointer
type *i32 with the Eq operator does not succeed; it returns the
TypeMismatch diagnostic, where the claim says pointer equality succeeds
with type Bool. -/
theorem C8_counterexample :
    ctxP.index lhsP.ty = .Ptr IrContext.I32 ∧
    ctxP.index rhsP.ty = .Ptr IrContext.I32 ∧
    isOkE (lower_bin ctxP 0 lhsP .Eq rhsP) = false :=
  ⟨rfl, rfl, rfl⟩

/-- C8 amended: lower_bin applied to two pointer-typed operands with
the Eq comparison operator always fails with the TypeMismatch
diagnostic: the lowering table has no pointer comparison row, so at the
IR lowering level pointer equality is not a legal operation. -/
theorem C8_ptr_eq_rejected (ctx : IrContext) (file : Nat) (lhs rhs : IrExpr) (a b : Nat)
    (h1 : ctx.index lhs.ty = .Ptr a) (h2 : ctx.index rhs.ty = .Ptr b) :
    lower_bin ctx file lhs .Eq rhs = .error (binDiag ctx file lhs .Eq rhs) := by
  unfold lower_bin
  rw [h1, h2]
  rfl

theorem C8_ptr_eq_rejected_witness :
    ctxP.index lhsP.ty = .Ptr IrContext.I32 ∧
    ctxP.index rhsP.ty = .Ptr IrContext.I32 ∧
    lower_bin ctxP 0 lhsP .Eq rhsP = .error (binDiag ctxP 0 lhsP .Eq rhsP) :=
  ⟨by decide, by decide,
    C8_ptr_eq_rejected ctxP 0 lhsP rhsP IrContext.I32 IrContext.I32 (by decide) (by decide)⟩

/-- C9: in the code generator pointer arm, the Op::Equal case emits
an integer comparison with the NE predicate, the same predicate as the
Op::NEqual case, so pointer equality comparison is generated with the
not-equal predicate. -/
theorem C9_ptr_equal_uses_ne :
    gen_bin_ptr lex.Op.Equal = some (.intCompare IntPredicate.NE "ptr_equal_cmp") ∧
    predicateOf (gen_bin_ptr lex.Op.Equal) = predicateOf (gen_bin_ptr lex.Op.NEqual) ∧
    predicateOf (gen_bin_ptr lex.Op.NEqual) = some IntPredicate.NE :=
  ⟨rfl, rfl, rfl⟩

/-- Looking a handle up in an extended interner list gives the same
type as long as the handle predates the extension. -/
theorem getD_append_left (l l' : List IrType) (i : Nat) (h : i < l.length) :
    (l ++ l').getD i .Invalid = l.getD i .Invalid := by
  rw [List.getD_eq_getElem?_getD, List.getD_eq_getElem?_getD, List.getElem?_append_left h]

/-- Looking up the handle just issued for an appended type gives back
that type. -/
theorem getD_concat_self (l : List IrType) (x : IrType) :
    (l ++ [x]).getD l.length .Invalid = x := by
  rw [List.getD_eq_getElem?_getD]
  simp

/-- The interner list of a context after a sequence of further
insertions is the original list with the new types appended in order. -/
theorem insertAll_types (l : List IrType) (ctx : IrContext) :
    (insertAll ctx l).types.types = ctx.types.types ++ l := by
  induction l generalizing ctx with
  | nil => simp [insertAll]
  | cons x xs ih =>
    show (insertAll ⟨⟨ctx.types.types ++ [x]⟩⟩ xs).types.types = _
    rw [ih]
    simp

/-- C3: lower_unary implements exactly the four unary typing rules:
Star on a Ptr operand yields the pointee type; AND on any operand
interns a new Ptr type (appending it to the interner and returning the
fresh handle, which resolves to that pointer type — the only unary case
that inserts into the interner, every other success returning the
context unchanged); Sub on Integer or Float and NOT on Integer or Ptr
yield the operand own type; and every other operator/operand-type
pair fails with the TypeMismatch diagnostic whose sole primary label is
the operand span. -/
theorem C3_unary_rules (ctx : IrContext) (file : Nat) (e : IrExpr) :
    (∀ t, ctx.index e.ty = .Ptr t →
      lower_unary ctx file .Star e = .ok (ctx, .mk e.span t (.Unary .Star e))) ∧
    (lower_unary ctx file .AND e =
      .ok (⟨⟨ctx.types.types ++ [.Ptr e.ty]⟩⟩,
        .mk e.span ctx.types.types.length (.Unary .AND e)) ∧
      (⟨⟨ctx.types.types ++ [.Ptr e.ty]⟩⟩ : IrContext).index ctx.types.types.length =
        .Ptr e.ty) ∧
    (∀ a, ctx.index e.ty = .Integer a →
      lower_unary ctx file .Sub e = .ok (ctx, .mk e.span e.ty (.Unary .Sub e))) ∧
    (∀ fl, ctx.index e.ty = .Float fl →
      lower_unary ctx file .Sub e = .ok (ctx, .mk e.span e.ty (.Unary .Sub e))) ∧
    (∀ a, ctx.index e.ty = .Integer a →
      lower_unary ctx file .NOT e = .ok (ctx, .mk e.span e.ty (.Unary .NOT e))) ∧
    (∀ t, ctx.index e.ty = .Ptr t →
      lower_unary ctx file .NOT e = .ok (ctx, .mk e.span e.ty (.Unary .NOT e))) ∧
    (∀ op, unary_rule_applies op (ctx.index e.ty) = false →
      lower_unary ctx file op e = .error (unaryDiag ctx file op e)) := by
  refine ⟨?_, ⟨?_, ?_⟩, ?_, ?_, ?_, ?_, ?_⟩
  · intro t h
    simp [lower_unary, h]
  · simp [lower_unary, Interner.insert]
  · exact getD_concat_self ctx.types.types (.Ptr e.ty)
  · intro a h
    simp [lower_unary, h]
  · intro fl h
    simp [lower_unary, h]
  · intro a h
    simp [lower_unary, h]
  · intro t h
    simp [lower_unary, h]
  · intro op h
    cases op <;> cases hx : ctx.index e.ty <;>
      simp_all [lower_unary, unary_rule_applies]

theorem C3_unary_rules_witness :
    (ctxP.index lhsP.ty = .Ptr IrContext.I32 ∧
      lower_unary ctxP 0 .Star lhsP = .ok (ctxP, .mk lhsP.span IrContext.I32 (.Unary .Star lhsP))) ∧
    (unary_rule_applies .Star (ctxN.index lhsBool.ty) = false ∧
      lower_unary ctxN 0 .Star lhsBool = .error (unaryDiag ctxN 0 .Star lhsBool)) :=
  ⟨⟨by decide, (C3_unary_rules ctxP 0 lhsP).1 IrContext.I32 (by decide)⟩,
   ⟨by decide, (C3_unary_rules ctxN 0 lhsBool).2.2.2.2.2.2 .Star (by decide)⟩⟩

/-- C4: in a freshly constructed context the thirteen fixed handles
I8..INVALID resolve to the signed integers of width 8..64, the unsigned
integers of width 8..64, Bool, Unit, f32, f64 and Invalid in that exact
order; they keep resolving to those types after any further sequence of
insertions; and itype maps every (signedness, width) pair to a handle
holding exactly that integer type. -/
theorem C4_fixed_primitive_handles :
    (IrContext.new.index IrContext.I8 = .Integer ⟨true, .Eight⟩ ∧
     IrContext.new.index IrContext.I16 = .Integer ⟨true, .Sixteen⟩ ∧
     IrContext.new.index IrContext.I32 = .Integer ⟨true, .ThirtyTwo⟩ ∧
     IrContext.new.index IrContext.I64 = .Integer ⟨true, .SixtyFour⟩ ∧
     IrContext.new.index IrContext.U8 = .Integer ⟨false, .Eight⟩ ∧
     IrContext.new.index IrContext.U16 = .Integer ⟨false, .Sixteen⟩ ∧
     IrContext.new.index IrContext.U32 = .Integer ⟨false, .ThirtyTwo⟩ ∧
     IrContext.new.index IrContext.U64 = .Integer ⟨false, .SixtyFour⟩ ∧
     IrContext.new.index IrContext.BOOL = .Bool ∧
     IrContext.new.index IrContext.UNIT = .Unit ∧
     IrContext.new.index IrContext.F32 = .Float ⟨false⟩ ∧
     IrContext.new.index IrContext.F64 = .Float ⟨true⟩ ∧
     IrContext.new.index IrContext.INVALID = .Invalid) ∧
    (∀ (l : List IrType) (i : Nat), i ≤ 12 →
      (insertAll IrContext.new l).index i = IrContext.new.index i) ∧
    (∀ (s : Bool) (w : IntegerWidth),
      IrContext.new.index (IrContext.itype s w) = .Integer ⟨s, w⟩) := by
  refine ⟨by decide, ?_, ?_⟩
  · intro l i h
    show (insertAll IrContext.new l).types.types.getD i .Invalid = _
    rw [insertAll_types]
    exact getD_append_left _ _ _ (by simp [IrContext.new, Interner.insert]; omega)
  · intro s w
    cases s <;> cases w <;> decide

/-- C5: every successful lower_bin result spans from the LHS operand 
span start to the RHS operand span end, whatever the operator; every
successful lower_unary result reuses the operand span unchanged. -/
theorem C5_result_spans :
    (∀ (ctx : IrContext) (file : Nat) (lhs : IrExpr) (op : Op) (rhs e : IrExpr),
      lower_bin ctx file lhs op rhs = .ok e →
      e.span = ⟨lhs.span.from_, rhs.span.to_⟩) ∧
    (∀ (ctx : IrContext) (file : Nat) (op : Op) (x : IrExpr) (ctx2 : IrContext) (e : IrExpr),
      lower_unary ctx file op x = .ok (ctx2, e) → e.span = x.span) := by
  constructor
  · intro ctx file lhs op rhs e h
    unfold lower_bin at h
    split at h
    · simp only [Except.ok.injEq] at h
      rw [← h]
      rfl
    · simp at h
  · intro ctx file op x ctx2 e h
    unfold lower_unary at h
    split at h <;>
      simp only [Except.ok.injEq, Prod.mk.injEq, reduceCtorEq] at h <;>
      obtain ⟨-, h2⟩ := h <;> rw [← h2] <;> rfl

theorem C5_result_spans_witness :
    (lower_bin ctxN 0 lhsI32 .Add rhsI32 =
        .ok (.mk ⟨0, 9⟩ IrContext.I32 (.Binary lhsI32 .Add rhsI32)) ∧
      (IrExpr.mk ⟨0, 9⟩ IrContext.I32 (.Binary lhsI32 .Add rhsI32)).span =
        ⟨lhsI32.span.from_, rhsI32.span.to_⟩) ∧
    (lower_unary ctxP 0 .Star lhsP = .ok (ctxP, .mk lhsP.span IrContext.I32 (.Unary .Star lhsP)) ∧
      (IrExpr.mk lhsP.span IrContext.I32 (.Unary .Star lhsP)).span = lhsP.span) :=
  ⟨⟨rfl, C5_result_spans.1 ctxN 0 lhsI32 .Add rhsI32 _ rfl⟩,
   ⟨rfl, C5_result_spans.2 ctxP 0 .Star lhsP ctxP _ rfl⟩⟩

/-- C6: when lower_bin classification matches no rule it returns an
error diagnostic whose message names the operator and both operand
types rendered names, carrying exactly one primary label spanning the
whole binary expression from the LHS start to the RHS end and exactly
two secondary labels, one on each operand span, each annotated with
that operand rendered type name; the unary failure diagnostic carries
exactly one primary label on the operand span. -/
theorem C6_diag_structure :
    (∀ (ctx : IrContext) (file : Nat) (lhs : IrExpr) (op : Op) (rhs : IrExpr) (d : Diagnostic),
      lower_bin ctx file lhs op rhs = .error d →
      d.message = "Cannot apply binary operator " ++ op.fmt ++ " to operand types " ++
        ctx.typename lhs.ty ++ " and " ++ ctx.typename rhs.ty ∧
      d.labels = [Label.primary file ⟨lhs.span.from_, rhs.span.to_⟩,
        (Label.secondary file lhs.span).with_message
          ("LHS of type " ++ ctx.typename lhs.ty ++ " appears here"),
        (Label.secondary file rhs.span).with_message
          ("RHS of type " ++ ctx.typename rhs.ty ++ " appears here")] ∧
      (d.labels.filter (fun l => l.style matches .primary)).length = 1 ∧
      (d.labels.filter (fun l => l.style matches .secondary)).length = 2) ∧
    (∀ (ctx : IrContext) (file : Nat) (op : Op) (x : IrExpr) (d : Diagnostic),
      lower_unary ctx file op x = .error d →
      d.message = "Cannot apply unary operator " ++ op.fmt ++ " to expression of type " ++
        ctx.typename x.ty ∧
      d.labels = [Label.primary file x.span] ∧
      (d.labels.filter (fun l => l.style matches .primary)).length = 1) := by
  constructor
  · intro ctx file lhs op rhs d h
    unfold lower_bin at h
    split at h
    · simp at h
    · simp only [Except.error.injEq] at h
      rw [← h]
      exact ⟨rfl, rfl, rfl, rfl⟩
  · intro ctx file op x d h
    unfold lower_unary at h
    split at h <;> simp only [Except.error.injEq, reduceCtorEq] at h
    rw [← h]
    exact ⟨rfl, rfl, rfl⟩

theorem C6_diag_structure_witness :
    (lower_bin ctxC7 0 lhsSt .Add rhsSt = .error (binDiag ctxC7 0 lhsSt .Add rhsSt) ∧
      (binDiag ctxC7 0 lhsSt .Add rhsSt).message =
        "Cannot apply binary operator " ++ Op.fmt .Add ++ " to operand types " ++
          ctxC7.typename lhsSt.ty ++ " and " ++ ctxC7.typename rhsSt.ty ∧
      (binDiag ctxC7 0 lhsSt .Add rhsSt).labels =
        [Label.primary 0 ⟨lhsSt.span.from_, rhsSt.span.to_⟩,
          (Label.secondary 0 lhsSt.span).with_message
            ("LHS of type " ++ ctxC7.typename lhsSt.ty ++ " appears here"),
          (Label.secondary 0 rhsSt.span).with_message
            ("RHS of type " ++ ctxC7.typename rhsSt.ty ++ " appears here")] ∧
      ((binDiag ctxC7 0 lhsSt .Add rhsSt).labels.filter
        (fun l => l.style matches .primary)).length = 1 ∧
      ((binDiag ctxC7 0 lhsSt .Add rhsSt).labels.filter
        (fun l => l.style matches .secondary)).length = 2) ∧
    (lower_unary ctxN 0 .Star lhsBool = .error (unaryDiag ctxN 0 .Star lhsBool) ∧
      (unaryDiag ctxN 0 .Star lhsBool).labels = [Label.primary 0 lhsBool.span] ∧
      ((unaryDiag ctxN 0 .Star lhsBool).labels.filter
        (fun l => l.style matches .primary)).length = 1) :=
  ⟨⟨rfl, (C6_diag_structure.1 ctxC7 0 lhsSt .Add rhsSt _ rfl).1,
      (C6_diag_structure.1 ctxC7 0 lhsSt .Add rhsSt _ rfl).2.1,
      (C6_diag_structure.1 ctxC7 0 lhsSt .Add rhsSt _ rfl).2.2.1,
      (C6_diag_structure.1 ctxC7 0 lhsSt .Add rhsSt _ rfl).2.2.2⟩,
   ⟨rfl, (C6_diag_structure.2 ctxN 0 .Star lhsBool _ rfl).2.1,
      (C6_diag_structure.2 ctxN 0 .Star lhsBool _ rfl).2.2⟩⟩

/-- C7 counterexample: the sum type over bool and unit renders as
"bool | () | " with a trailing separator, not as its variants
separated by " | ", which would be "bool | ()". -/
theorem C7_counterexample :
    ctxS.index 13 = .Sum ⟨[IrContext.BOOL, IrContext.UNIT]⟩ ∧
    IrContext.typename ctxS 13 = "bool | () | " ∧
    ¬ IrContext.typename ctxS 13 = "bool | ()" :=
  ⟨rfl, rfl, by decide⟩

/-- C7 amended: typename rendering is deterministic and independent of
call order, and follows the format rules with one correction: a sum
renders as each variant followed by " | ", including a trailing
separator after the last variant. In particular the pointer to an array
of four one-field structs renders as "*[4]\x7bi32 x,\x7d", and that
rendering is unchanged when the same structural chain is interned after
unrelated insertions. -/
theorem C7_typename_rules :
    IrContext.typename ctxC7 15 = "*[4]\x7bi32 x,\x7d" ∧
    IrContext.typename ctxC7b 17 = "*[4]\x7bi32 x,\x7d" ∧
    (∀ (ctx : IrContext) (fuel i : Nat) (ity : IrIntegerType),
      ctx.index i = .Integer ity → fmtTypename ctx (fuel + 1) i = intName ity) ∧
    (∀ (ctx : IrContext) (fuel i : Nat),
      ctx.index i = .Bool → fmtTypename ctx (fuel + 1) i = "bool") ∧
    (∀ (ctx : IrContext) (fuel i : Nat),
      ctx.index i = .Unit → fmtTypename ctx (fuel + 1) i = "()") ∧
    (∀ (ctx : IrContext) (fuel i j : Nat),
      ctx.index i = .Ptr j →
      fmtTypename ctx (fuel + 1) i = "*" ++ fmtTypename ctx fuel j) ∧
    (∀ (ctx : IrContext) (fuel i : Nat) (a : IrArrayType),
      ctx.index i = .Array a →
      fmtTypename ctx (fuel + 1) i =
        "[" ++ toString a.len ++ "]" ++ fmtTypename ctx fuel a.element) ∧
    (∀ (ctx : IrContext) (fuel i : Nat) (s : IrStructType),
      ctx.index i = .Struct s →
      fmtTypename ctx (fuel + 1) i =
        "\x7b" ++ String.join (s.fields.map
          (fun fld => fmtTypename ctx fuel fld.1 ++ " " ++ fld.2 ++ ",")) ++ "\x7d") ∧
    (∀ (ctx : IrContext) (fuel i : Nat) (u : IrSumType),
      ctx.index i = .Sum u →
      fmtTypename ctx (fuel + 1) i =
        String.join (u.variants.map (fun v => fmtTypename ctx fuel v ++ " | "))) ∧
    (∀ (ctx : IrContext) (fuel i : Nat) (n : String) (under : Nat),
      ctx.index i = .Alias n under → fmtTypename ctx (fuel + 1) i = n) ∧
    (∀ (ctx : IrContext) (fuel i : Nat),
      ctx.index i = .Invalid → fmtTypename ctx (fuel + 1) i = "INVALID") := by
  refine ⟨rfl, rfl, ?_, ?_, ?_, ?_, ?_, ?_, ?_, ?_, ?_⟩ <;>
    intro ctx fuel i
  · intro ity h
    simp [fmtTypename, h]
  · intro h
    simp [fmtTypename, h]
  · intro h
    simp [fmtTypename, h]
  · intro j h
    simp [fmtTypename, h]
  · intro a h
    simp [fmtTypename, h]
  · intro s h
    simp [fmtTypename, h]
  · intro u h
    simp [fmtTypename, h]
  · intro n under h
    simp [fmtTypename, h]
  · intro h
    simp [fmtTypename, h]

theorem C7_typename_rules_witness :
    IrContext.new.index IrContext.BOOL = .Bool ∧
    fmtTypename IrContext.new 1 IrContext.BOOL = "bool" :=
  ⟨by decide, C7_typename_rules.2.2.2.1 IrContext.new 0 IrContext.BOOL (by decide)⟩

/-- C10: lower_bin lowers its LHS operand first and its RHS in the
state the LHS produced; a failing LHS short-circuits with that error
unchanged regardless of the RHS expression, a failing RHS
short-circuits with that error unchanged, and lower_unary likewise
returns its operand lowering error unchanged. -/
theorem C10_operand_sequencing :
    (∀ (E : Type) (f : IrContext → E → Except Diagnostic (IrExpr × IrContext))
        (ctx : IrContext) (file : Nat) (lhs rhs : E) (op : Op) (d : Diagnostic),
      f ctx lhs = .error d → lower_bin_f f ctx file lhs op rhs = .error d) ∧
    (∀ (E : Type) (f : IrContext → E → Except Diagnostic (IrExpr × IrContext))
        (ctx : IrContext) (file : Nat) (lhs rhs : E) (op : Op)
        (l : IrExpr) (ctx1 : IrContext) (d : Diagnostic),
      f ctx lhs = .ok (l, ctx1) → f ctx1 rhs = .error d →
      lower_bin_f f ctx file lhs op rhs = .error d) ∧
    (∀ (E : Type) (f : IrContext → E → Except Diagnostic (IrExpr × IrContext))
        (ctx : IrContext) (file : Nat) (lhs rhs : E) (op : Op)
        (l : IrExpr) (ctx1 : IrContext) (r : IrExpr) (ctx2 : IrContext),
      f ctx lhs = .ok (l, ctx1) → f ctx1 rhs = .ok (r, ctx2) →
      lower_bin_f f ctx file lhs op rhs = lower_bin ctx2 file l op r) ∧
    (∀ (E : Type) (f : IrContext → E → Except Diagnostic (IrExpr × IrContext))
        (ctx : IrContext) (file : Nat) (op : Op) (e : E) (d : Diagnostic),
      f ctx e = .error d → lower_unary_f f ctx file op e = .error d) := by
  refine ⟨?_, ?_, ?_, ?_⟩
  · intro E f ctx file lhs rhs op d h
    simp [lower_bin_f, h]
  · intro E f ctx file lhs rhs op l ctx1 d h1 h2
    simp [lower_bin_f, h1, h2]
  · intro E f ctx file lhs rhs op l ctx1 r ctx2 h1 h2
    simp [lower_bin_f, h1, h2]
  · intro E f ctx file op e d h
    simp [lower_unary_f, h]

theorem C10_operand_sequencing_witness :
    f0 ctxN 0 = .error Diagnostic.error ∧
    lower_bin_f f0 ctxN 0 0 .Add 1 = .error Diagnostic.error ∧
    f1 ctxN 0 = .ok (.mk ⟨0, 3⟩ IrContext.I32 .Other, ctxN) ∧
    f1 ctxN 6 = .ok (.mk ⟨6, 9⟩ IrContext.I32 .Other, ctxN) ∧
    lower_bin_f f1 ctxN 0 0 .Add 6 =
      lower_bin ctxN 0 (.mk ⟨0, 3⟩ IrContext.I32 .Other) .Add (.mk ⟨6, 9⟩ IrContext.I32 .Other) ∧
    lower_unary_f f0 ctxN 0 .Star 0 = .error Diagnostic.error :=
  ⟨rfl,
   C10_operand_sequencing.1 Nat f0 ctxN 0 0 1 .Add Diagnostic.error rfl,
   rfl, rfl,
   C10_operand_sequencing.2.2.1 Nat f1 ctxN 0 0 6 .Add
     (.mk ⟨0, 3⟩ IrContext.I32 .Other) ctxN (.mk ⟨6, 9⟩ IrContext.I32 .Other) ctxN rfl rfl,
   C10_operand_sequencing.2.2.2 Nat f0 ctxN 0 .Star 0 Diagnostic.error rfl⟩

end Spark
